import Mathlib

/-!
Verification of the replicated-write durability layer of the expense-tracker
server against its specification.

The embedding models, from `src/models/Expense.js` (and the identical copies in
`Account.js`, `Category.js`, `Income.js`, `IncomeCategory.js`, `Investment.js`,
`PFEntry.js`), the `tripleWrite` coordinator; from `src/models/database.js` the
`BackupManager` (`verifyIntegrity`, `restoreFromBackup`, `syncToBackups`), the
`initDB` schema/seed routine and `performStartupCheck`; and from
`src/models/Expense.js` / `src/models/Account.js` the user-scoped CRUD
operations.

Store engines are modelled at the level of their guarantees: a SQLite
transaction on one connection either commits the closure's effects on that
connection or, when the closure throws, rolls that connection back to its
pre-transaction state and rethrows; statements on other connections made inside
the closure are not part of that transaction and are not rolled back.
-/

namespace ExpTracker

/-! ## Write coordinator (`tripleWrite`, src/models/Expense.js lines 149-171)

A single invocation of the mutation closure on one store handle either
succeeds with a new store state and a result value, or throws; a throw also
carries the store state at the moment of the throw (a multi-statement
operation may have applied a prefix of its statements). -/

/-- Outcome of running the mutation closure against one store handle:
success with the updated store and a result, or a thrown error together with
the store state reached before the throw. -/
inductive OpResult (E α σ : Type) where
  | ok (s : σ) (a : α)
  | err (s : σ) (e : E)
deriving DecidableEq

/-- The process-wide store state: the primary handle `main` plus the two
optional replica handles (`backup1Db` / `backup2Db` are `null` when opening
them failed, modelled by `none`). -/
structure SysState (σ : Type) where
  main : σ
  backup1 : Option σ
  backup2 : Option σ
deriving DecidableEq

/-- Errors escaping `tripleWrite`: the primary's own error rethrown unchanged
by the transaction wrapper, or the coordinator's
`new Error('Failed to write to backup databases')`. -/
inductive TWError (E : Type) where
  | primary (e : E)
  | backupFailed
deriving DecidableEq

/-- Shallow embedding of `tripleWrite(operation)` from
`src/models/Expense.js` lines 149-171 (textually identical in every model
class).  The closure runs `operation(db)`, then inside one `try` block
`operation(backup1Db)` (when non-null) and `operation(backup2Db)` (when
non-null); any throw from the replica section is caught once, logged, and
replaced by a fresh `Failed to write to backup databases` error.  The whole
closure runs inside `db.transaction(...)`: a throw escaping the closure rolls
the PRIMARY connection back to its pre-transaction state and rethrows, while
replica connections keep whatever the closure already did to them.  The
`Bool` argument of `op` is `true` exactly for the primary invocation,
mirroring the closure's `database === db` test. -/
def tripleWrite {σ E α : Type} (op : Bool → σ → OpResult E α σ) (s : SysState σ) :
    SysState σ × Except (TWError E) α :=
  match op true s.main with
  | .err _ e => (s, .error (.primary e))
  | .ok m1 res =>
    match s.backup1 with
    | some b1 =>
      match op false b1 with
      | .err b1x _ => (⟨s.main, some b1x, s.backup2⟩, .error .backupFailed)
      | .ok b1x _ =>
        match s.backup2 with
        | some b2 =>
          match op false b2 with
          | .err b2x _ => (⟨s.main, some b1x, some b2x⟩, .error .backupFailed)
          | .ok b2x _ => (⟨m1, some b1x, some b2x⟩, .ok res)
        | none => (⟨m1, some b1x, none⟩, .ok res)
    | none =>
      match s.backup2 with
      | some b2 =>
        match op false b2 with
        | .err b2x _ => (⟨s.main, none, some b2x⟩, .error .backupFailed)
        | .ok b2x _ => (⟨m1, none, some b2x⟩, .ok res)
      | none => (⟨m1, none, none⟩, .ok res)

/-! Concrete store used to exercise the coordinator on explicit inputs: a
store is reachable or not (a deleted/locked replica file makes every
statement on that handle throw) and holds a list of values. -/

/-- Minimal concrete store for concrete coordinator runs. -/
structure KVStore where
  reachable : Bool
  rows : List Nat
deriving DecidableEq

/-- Single-statement insert mutation: appends `v` on a reachable store,
throws on an unreachable one. -/
def insertOp (v : Nat) : Bool → KVStore → OpResult String Nat KVStore :=
  fun _ st =>
    if st.reachable then .ok ⟨st.reachable, st.rows ++ [v]⟩ v
    else .err st "SQLITE_IOERR"

/-- Two-statement mutation whose second statement always throws: the first
statement's effect (appending `99`) is visible in the store state carried by
the throw. -/
def partialFailOp : Bool → KVStore → OpResult String Nat KVStore :=
  fun _ st => .err ⟨st.reachable, st.rows ++ [99]⟩ "SQLITE_CONSTRAINT"

/-- Coordinator state with a healthy primary, an unreachable replica 1 and a
healthy replica 2. -/
def s0 : SysState KVStore := ⟨⟨true, []⟩, some ⟨false, []⟩, some ⟨true, []⟩⟩

/-- C1 counterexample.  With a healthy primary, an unreachable replica 1 and
a healthy replica 2, inserting a value through the coordinator: the call
returns the coordinator's `Failed to write to backup databases` error
instead of the primary's result, the primary's committed insert is rolled
back (its rows are empty afterwards), and replica 2 was never attempted (its
rows are also empty) — refuting, at this input, that the other replica is
still attempted, that the primary's result is not undone, that no exception
raises past the coordinator, and that the caller receives the primary's
result. -/
theorem tripleWrite_c1_counterexample :
    tripleWrite (insertOp 5) s0 = (s0, .error .backupFailed) ∧
    (tripleWrite (insertOp 5) s0).1.main.rows = [] ∧
    (tripleWrite (insertOp 5) s0).1.backup2 = some ⟨true, []⟩ ∧
    (tripleWrite (insertOp 5) s0).2 ≠ .ok 5 :=
  ⟨rfl, rfl, rfl, fun h => nomatch h⟩

/-- C1 (amended).  If the primary invocation succeeds but any attempted
replica invocation throws, the single shared catch block replaces the error
with `Failed to write to backup databases` and rethrows it out of the
transaction closure, so: when replica 1 fails, replica 2 is not attempted
(its field is returned untouched); in every replica-failure case the primary
transaction is rolled back to its pre-call state and the error — not the
primary's result — reaches the caller. -/
theorem tripleWrite_replica_failure_rolls_back_primary {σ E α : Type}
    (op : Bool → σ → OpResult E α σ) (s : SysState σ) :
    (∀ m r b1 b1x e1, op true s.main = .ok m r → s.backup1 = some b1 →
      op false b1 = .err b1x e1 →
      tripleWrite op s = (⟨s.main, some b1x, s.backup2⟩, .error .backupFailed)) ∧
    (∀ m r b1 b1x r1 b2 b2x e2, op true s.main = .ok m r → s.backup1 = some b1 →
      op false b1 = .ok b1x r1 → s.backup2 = some b2 → op false b2 = .err b2x e2 →
      tripleWrite op s = (⟨s.main, some b1x, some b2x⟩, .error .backupFailed)) ∧
    (∀ m r b2 b2x e2, op true s.main = .ok m r → s.backup1 = none →
      s.backup2 = some b2 → op false b2 = .err b2x e2 →
      tripleWrite op s = (⟨s.main, none, some b2x⟩, .error .backupFailed)) := by
  refine ⟨?_, ?_, ?_⟩
  · intro m r b1 b1x e1 hm hb1 hop
    simp only [tripleWrite, hm, hb1, hop]
  · intro m r b1 b1x r1 b2 b2x e2 hm hb1 hop1 hb2 hop2
    simp only [tripleWrite, hm, hb1, hop1, hb2, hop2]
  · intro m r b2 b2x e2 hm hb1 hb2 hop2
    simp only [tripleWrite, hm, hb1, hb2, hop2]

/-- Witness for the amended C1 theorem at the concrete state `s0` with the
concrete insert mutation. -/
theorem tripleWrite_replica_failure_rolls_back_primary_witness :
    tripleWrite (insertOp 5) s0 = (⟨s0.main, some ⟨false, []⟩, s0.backup2⟩,
      .error .backupFailed) :=
  (tripleWrite_replica_failure_rolls_back_primary (insertOp 5) s0).1
    ⟨true, [5]⟩ 5 ⟨false, []⟩ ⟨false, []⟩ "SQLITE_IOERR" rfl rfl rfl

/-- C2.  If the primary invocation of the mutation throws — possibly after a
prefix of its statements already applied, the partial state `m` — the
transaction wrapper rolls the primary back, so the returned system state is
exactly the input state: no partial effect remains in the primary and
neither replica was invoked; the primary's own error propagates to the
caller unchanged and the whole call fails. -/
theorem tripleWrite_primary_failure_atomic {σ E α : Type}
    (op : Bool → σ → OpResult E α σ) (s : SysState σ) (m : σ) (e : E)
    (h : op true s.main = .err m e) :
    tripleWrite op s = (s, .error (.primary e)) := by
  unfold tripleWrite
  rw [h]

/-- Witness for C2: a two-statement mutation whose second statement throws
leaves the concrete system state `s0` entirely unchanged and surfaces the
original constraint error. -/
theorem tripleWrite_primary_failure_atomic_witness :
    tripleWrite partialFailOp s0 = (s0, .error (.primary "SQLITE_CONSTRAINT")) :=
  tripleWrite_primary_failure_atomic partialFailOp s0 ⟨true, [99]⟩
    "SQLITE_CONSTRAINT" rfl

/-! ## Integrity checking and recovery (src/models/database.js lines 49-108,
361-394)

A store file's content is either a valid SQLite database holding a row set,
or corrupted bytes.  Running `PRAGMA integrity_check` on a handle yields a
scan outcome: either the pragma throws (closed handle, unreadable or locked
file) or it reports a list of result rows — `['ok']` for a healthy store. -/

/-- Content of one store file on disk: a valid database with its row set, or
corrupted bytes (the parameter distinguishes corruption shapes). -/
inductive Content where
  | valid (rows : List Nat)
  | corrupt (junk : Nat)
deriving DecidableEq

/-- Outcome of running `PRAGMA integrity_check` on one handle: the pragma
threw, or it returned its list of report rows. -/
inductive ScanOutcome where
  | threw
  | report (rows : List String)
deriving DecidableEq

/-- Shallow embedding of `BackupManager.verifyIntegrity(database)`
(src/models/database.js lines 66-74): runs the structural scan inside a
`try`; the verdict is `result[0].integrity_check === 'ok'`.  A throw from
the pragma — and likewise the `TypeError` from indexing an empty result
list — is caught and yields `false`; the function itself never throws. -/
def verifyIntegrity (o : ScanOutcome) : Bool :=
  match o with
  | .threw => false
  | .report rows =>
    match rows.head? with
    | some r => r == "ok"
    | none => false

/-- Scan outcome of an open handle on the given file content: a valid store
reports the canonical `['ok']`; a corrupted one reports error rows. -/
def contentScan : Content → ScanOutcome
  | .valid _ => .report ["ok"]
  | .corrupt _ => .report ["database disk image is malformed"]

/-- Process-level recovery state: the primary's file content and whether the
module-level primary handle `db` is open, the two replica files (absent when
`none`), and whether the two module-level replica handles are non-null. -/
structure RecState where
  mainFile : Content
  mainOpen : Bool
  b1File : Option Content
  b2File : Option Content
  b1Handle : Bool
  b2Handle : Bool
deriving DecidableEq

/-- Scan produced by the module-level primary handle: a closed handle makes
the pragma throw; an open one scans the primary file. -/
def mainScan (s : RecState) : ScanOutcome :=
  if s.mainOpen then contentScan s.mainFile else .threw

/-- The integrity verdict of `BackupManager.verifyIntegrity()` at its
default argument, the module-level primary handle. -/
def verifyIntegrityMain (s : RecState) : Bool :=
  verifyIntegrity (mainScan s)

/-- Shallow embedding of `BackupManager.restoreFromBackup(backupNum)`
(src/models/database.js lines 76-107): pick the replica file (`backupNum
=== 1` selects backup 1, anything else backup 2); fail if the file does not
exist; open it fresh and check its integrity, failing if invalid; otherwise
close the primary handle (`db.close()`), copy the replica file over the
primary's file byte for byte (`fs.copyFileSync`), and report success.  The
source never reopens the primary handle, so `mainOpen` stays `false`. -/
def restoreFromBackup (backupNum : Nat) (s : RecState) : RecState × Bool :=
  let sourceFile := if backupNum == 1 then s.b1File else s.b2File
  match sourceFile with
  | none => (s, false)
  | some c =>
    if verifyIntegrity (contentScan c) then
      ({ s with mainOpen := false, mainFile := c }, true)
    else (s, false)

/-- Shallow embedding of `BackupManager.syncToBackups()`
(src/models/database.js lines 51-64): for each non-null replica handle, copy
the primary database to that replica's file via `db.backup(path)`; a closed
primary handle makes the copy throw, which is caught and reported as
`false`. -/
def syncToBackups (s : RecState) : RecState × Bool :=
  if s.mainOpen then
    let s1 := if s.b1Handle then { s with b1File := some s.mainFile } else s
    let s2 := if s.b2Handle then { s1 with b2File := some s1.mainFile } else s1
    (s2, true)
  else (s, false)

/-- Which branch of `performStartupCheck` returned, mirroring its log lines:
main integrity OK, restored from a given backup, or all backups failed. -/
inductive StartupOutcome where
  | healthy
  | restoredFrom (backupNum : Nat)
  | unrecovered
deriving DecidableEq

/-- Shallow embedding of `performStartupCheck()` (src/models/database.js
lines 362-388): verify the primary; when healthy, sync it to the backups and
return.  Otherwise try `restoreFromBackup(1)`, then `restoreFromBackup(2)`,
returning on the first success; when both fail, report the unrecoverable
state.  The source returns a boolean that is `true` in every branch except
the last; the outcome value additionally records which branch's log line was
reached. -/
def performStartupCheck (s : RecState) : RecState × StartupOutcome :=
  if verifyIntegrityMain s then ((syncToBackups s).1, .healthy)
  else
    match restoreFromBackup 1 s with
    | (s1, true) => (s1, .restoredFrom 1)
    | (s1, false) =>
      match restoreFromBackup 2 s1 with
      | (s2, true) => (s2, .restoredFrom 2)
      | (s2, false) => (s2, .unrecovered)

/-- The boolean actually returned by the source's `performStartupCheck`. -/
def performStartupCheckOk (s : RecState) : Bool :=
  (performStartupCheck s).2 != .unrecovered

/-- Shallow embedding of the process start wiring: `database.js` lines
390-394 run `initDB()` and then `performStartupCheck()` at module load,
discarding the returned boolean; `server.js` then unconditionally calls
`startServer()`, which invokes `createServer(...).listen(...)` (lines
1004-1028) with no branch on the startup check.  The boolean component is
`true` exactly when the HTTP server ends up listening — which the source
makes unconditional. -/
def startProcess (s : RecState) : RecState × Bool :=
  ((performStartupCheck s).1, true)

/-- Startup state with a corrupted primary (open handle), a corrupted
replica 1 file and no replica 2 file: recovery is exhausted. -/
def sUnrecoverable : RecState := ⟨.corrupt 0, true, some (.corrupt 1), none, true, false⟩

/-- Startup state with a corrupted primary (open handle) and a valid
replica 1 holding rows `[10, 20]`. -/
def sCorruptMain : RecState := ⟨.corrupt 0, true, some (.valid [10, 20]), none, true, false⟩

/-- C3 (code bug).  With a corrupted primary and a valid replica 1,
`restoreFromBackup 1` reports success and does overwrite the primary's file
with the replica's content, but the primary handle is left closed — the
source closes `db` and never opens a new handle — so a subsequent
`verifyIntegrity` on the primary handle throws on the closed connection and
yields `false`, where the claim requires the handle to be reopened and the
verdict to be `true`. -/
theorem restoreFromBackup_leaves_primary_handle_closed :
    restoreFromBackup 1 sCorruptMain =
      ({ sCorruptMain with mainOpen := false, mainFile := .valid [10, 20] }, true) ∧
    (restoreFromBackup 1 sCorruptMain).1.mainOpen = false ∧
    verifyIntegrityMain (restoreFromBackup 1 sCorruptMain).1 = false :=
  ⟨rfl, rfl, rfl⟩

/-- C4 (code bug).  In the unrecoverable startup state the check reports
failure (`unrecovered`, the source's `return false` after logging that the
database cannot be recovered), yet the process still starts serving: the
boolean returned by `performStartupCheck` is discarded at module load and
the HTTP listener is started unconditionally. -/
theorem startup_serves_despite_unrecoverable :
    (performStartupCheck sUnrecoverable).2 = .unrecovered ∧
    performStartupCheckOk sUnrecoverable = false ∧
    (startProcess sUnrecoverable).2 = true :=
  ⟨rfl, rfl, rfl⟩

/-- C5.  Given a corrupted primary, a replica 1 whose file exists but fails
integrity, and a valid replica 2, `performStartupCheck` skips replica 1,
promotes replica 2's file to the primary, and reports backup 2 as the
restore source. -/
theorem startup_recovery_priority_order (junk1 junk2 : Nat) (rows : List Nat)
    (s : RecState) (hm : s.mainFile = .corrupt junk1) (ho : s.mainOpen = true)
    (h1 : s.b1File = some (.corrupt junk2)) (h2 : s.b2File = some (.valid rows)) :
    performStartupCheck s =
      ({ s with mainOpen := false, mainFile := .valid rows }, .restoredFrom 2) := by
  have hv : verifyIntegrityMain s = false := by
    simp [verifyIntegrityMain, mainScan, ho, hm, contentScan, verifyIntegrity]
  have hr1 : restoreFromBackup 1 s = (s, false) := by
    simp [restoreFromBackup, h1, contentScan, verifyIntegrity]
  have hr2 : restoreFromBackup 2 s =
      ({ s with mainOpen := false, mainFile := .valid rows }, true) := by
    simp [restoreFromBackup, h2, contentScan, verifyIntegrity]
  simp [performStartupCheck, hv, hr1, hr2]

/-- Witness for C5 at the concrete startup state with replica 2 holding rows
`[7, 8]`. -/
theorem startup_recovery_priority_order_witness :
    performStartupCheck ⟨.corrupt 3, true, some (.corrupt 4), some (.valid [7, 8]), true, true⟩ =
      (⟨.valid [7, 8], false, some (.corrupt 4), some (.valid [7, 8]), true, true⟩,
        .restoredFrom 2) :=
  startup_recovery_priority_order 3 4 [7, 8]
    ⟨.corrupt 3, true, some (.corrupt 4), some (.valid [7, 8]), true, true⟩
    rfl rfl rfl rfl

/-- C6.  Under the engine guarantee that a scan report whose first row is
`'ok'` is exactly the single-row report `['ok']`, `verifyIntegrity` returns
`true` if and only if the scan reported the canonical `['ok']`; a scan that
throws yields the verdict `false` (the embedding is a total function: no
exception escapes). -/
theorem verifyIntegrity_iff_canonical_ok (o : ScanOutcome)
    (hwf : ∀ l, o = .report l → l.head? = some "ok" → l = ["ok"]) :
    (verifyIntegrity o = true ↔ o = .report ["ok"]) ∧
    verifyIntegrity .threw = false := by
  refine ⟨?_, rfl⟩
  constructor
  · intro h
    cases o with
    | threw => simp [verifyIntegrity] at h
    | report rows =>
      cases hrows : rows.head? with
      | none => simp [verifyIntegrity, hrows] at h
      | some r =>
        have hr : r = "ok" := by
          have := h
          simp [verifyIntegrity, hrows] at this
          exact this
        rw [hwf rows rfl (hr ▸ hrows)]
  · intro h
    subst h
    rfl

/-- Witness for C6 at the canonical healthy scan report. -/
theorem verifyIntegrity_iff_canonical_ok_witness :
    verifyIntegrity (.report ["ok"]) = true :=
  ((verifyIntegrity_iff_canonical_ok (.report ["ok"])
    (fun l hl _ => by cases hl; rfl)).1).2 rfl

/-! ## Schema migration (`initDB`, src/models/database.js lines 111-274)

The schema of one store is the per-table column list (absent table =
`none`).  `initDB` creates the tables on the primary with
`CREATE TABLE IF NOT EXISTS`, then patches columns: on the primary it reads
`PRAGMA table_info(expenses)` once and adds `whereSpent`, `userId` and
`accountId` when missing (and `accountId` on `incomes`); on each non-null
replica handle it first checks `sqlite_master` for the `expenses` table and
only patches `whereSpent` / `userId` when the table exists. -/

/-- Per-table schema of one store: the column list of each table the routine
touches, `none` when the table does not exist. -/
structure SchemaDB where
  users : Option (List String)
  categories : Option (List String)
  expenses : Option (List String)
  incomeCategories : Option (List String)
  accounts : Option (List String)
  incomes : Option (List String)
deriving DecidableEq

/-- Columns of the `users` table as created by `initDB`. -/
def usersCols : List String := ["id", "username", "passwordHash", "salt", "createdAt"]

/-- Columns of the `categories` table as created by `initDB`. -/
def categoriesCols : List String := ["id", "name", "icon", "hexColor"]

/-- Columns of the `expenses` table as created by `initDB` (no `accountId`:
that column is only added by the migration below). -/
def expensesCols : List String :=
  ["id", "amount", "date", "categoryId", "userId", "note", "whereSpent", "timestamp"]

/-- Columns of the `income_categories` table as created by `initDB`. -/
def incomeCategoriesCols : List String := ["id", "name", "icon", "hexColor"]

/-- Columns of the `accounts` table as created by `initDB`. -/
def accountsCols : List String :=
  ["id", "name", "type", "userId", "icon", "hexColor", "isDefault"]

/-- Columns of the `incomes` table as created by `initDB`. -/
def incomesCols : List String :=
  ["id", "amount", "date", "categoryId", "userId", "accountId", "note", "source", "timestamp"]

/-- Primary-side `expenses` migration (database.js lines 195-217): the
table info is read once into `info` and each of `whereSpent`, `userId`,
`accountId` is appended when absent from that one reading. -/
def patchExpensesMain (t : List String) : List String :=
  let info := t
  let t1 := if "whereSpent" ∈ info then t else t ++ ["whereSpent"]
  let t2 := if "userId" ∈ info then t1 else t1 ++ ["userId"]
  if "accountId" ∈ info then t2 else t2 ++ ["accountId"]

/-- Replica-side `expenses` migration (database.js lines 220-262): only
`whereSpent` and `userId` are patched on replicas. -/
def patchExpensesReplica (t : List String) : List String :=
  let info := t
  let t1 := if "whereSpent" ∈ info then t else t ++ ["whereSpent"]
  if "userId" ∈ info then t1 else t1 ++ ["userId"]

/-- Primary-side `incomes` migration (database.js lines 264-271). -/
def patchIncomes (t : List String) : List String :=
  if "accountId" ∈ t then t else t ++ ["accountId"]

/-- Replica migration step: the `sqlite_master` existence check — a replica
without an `expenses` table is returned untouched; otherwise its `expenses`
columns are patched. -/
def migrateReplica (r : SchemaDB) : SchemaDB :=
  match r.expenses with
  | none => r
  | some t => { r with expenses := some (patchExpensesReplica t) }

/-- Schema-level state of the whole deployment: primary schema plus the two
optional replica schemas (`none` = null handle, skipped by `initDB`). -/
structure MigState where
  main : SchemaDB
  backup1 : Option SchemaDB
  backup2 : Option SchemaDB
deriving DecidableEq

/-- Schema-shape portion of `initDB()` (src/models/database.js lines
111-274): unconditional `CREATE TABLE IF NOT EXISTS` for the six tables on
the primary, then the column patches on the primary's `expenses` and
`incomes`, and the guarded `expenses` patch on each non-null replica. -/
def initDBSchema (s : MigState) : MigState :=
  let m0 := s.main
  let main2 : SchemaDB :=
    { users := some (m0.users.getD usersCols)
      categories := some (m0.categories.getD categoriesCols)
      expenses := some (patchExpensesMain (m0.expenses.getD expensesCols))
      incomeCategories := some (m0.incomeCategories.getD incomeCategoriesCols)
      accounts := some (m0.accounts.getD accountsCols)
      incomes := some (patchIncomes (m0.incomes.getD incomesCols)) }
  ⟨main2, s.backup1.map migrateReplica, s.backup2.map migrateReplica⟩

/-- No-duplicate-columns predicate for one optional table. -/
def optNodup : Option (List String) → Prop
  | none => True
  | some t => t.Nodup

instance : (o : Option (List String)) → Decidable (optNodup o)
  | none => .isTrue trivial
  | some t => inferInstanceAs (Decidable t.Nodup)

/-- No table of the store has a duplicate column. -/
def SchemaNodup (d : SchemaDB) : Prop :=
  optNodup d.users ∧ optNodup d.categories ∧ optNodup d.expenses ∧
    optNodup d.incomeCategories ∧ optNodup d.accounts ∧ optNodup d.incomes

instance (d : SchemaDB) : Decidable (SchemaNodup d) := by
  unfold SchemaNodup
  infer_instance

/-- No-duplicate-columns predicate lifted to an optional replica schema. -/
def optSchemaNodup : Option SchemaDB → Prop
  | none => True
  | some d => SchemaNodup d

instance : (o : Option SchemaDB) → Decidable (optSchemaNodup o)
  | none => .isTrue trivial
  | some d => inferInstanceAs (Decidable (SchemaNodup d))

/-- No store of the deployment has a duplicate column. -/
def MigNodup (s : MigState) : Prop :=
  SchemaNodup s.main ∧ optSchemaNodup s.backup1 ∧ optSchemaNodup s.backup2

instance (s : MigState) : Decidable (MigNodup s) := by
  unfold MigNodup
  infer_instance

lemma patchExpensesMain_mem (t : List String) :
    "whereSpent" ∈ patchExpensesMain t ∧ "userId" ∈ patchExpensesMain t ∧
      "accountId" ∈ patchExpensesMain t := by
  simp only [patchExpensesMain]
  split_ifs with h1 h2 h3 <;> simp_all

lemma patchExpensesMain_of_mem (t : List String) (h1 : "whereSpent" ∈ t)
    (h2 : "userId" ∈ t) (h3 : "accountId" ∈ t) : patchExpensesMain t = t := by
  simp [patchExpensesMain, h1, h2, h3]

lemma patchExpensesMain_idem (t : List String) :
    patchExpensesMain (patchExpensesMain t) = patchExpensesMain t :=
  patchExpensesMain_of_mem _ (patchExpensesMain_mem t).1
    (patchExpensesMain_mem t).2.1 (patchExpensesMain_mem t).2.2

lemma patchExpensesMain_nodup (t : List String) (h : t.Nodup) :
    (patchExpensesMain t).Nodup := by
  simp only [patchExpensesMain]
  split_ifs with h1 h2 h3 <;>
    simp_all [List.nodup_append, List.disjoint_singleton]

lemma patchExpensesReplica_mem (t : List String) :
    "whereSpent" ∈ patchExpensesReplica t ∧ "userId" ∈ patchExpensesReplica t := by
  simp only [patchExpensesReplica]
  split_ifs with h1 h2 <;> simp_all

lemma patchExpensesReplica_of_mem (t : List String) (h1 : "whereSpent" ∈ t)
    (h2 : "userId" ∈ t) : patchExpensesReplica t = t := by
  simp [patchExpensesReplica, h1, h2]

lemma patchExpensesReplica_nodup (t : List String) (h : t.Nodup) :
    (patchExpensesReplica t).Nodup := by
  simp only [patchExpensesReplica]
  split_ifs with h1 h2 <;>
    simp_all [List.nodup_append, List.disjoint_singleton]

lemma patchIncomes_idem (t : List String) :
    patchIncomes (patchIncomes t) = patchIncomes t := by
  simp only [patchIncomes]
  split_ifs with h1 <;> simp_all

lemma patchIncomes_nodup (t : List String) (h : t.Nodup) :
    (patchIncomes t).Nodup := by
  simp only [patchIncomes]
  split_ifs with h1 <;>
    simp_all [List.nodup_append, List.disjoint_singleton]

lemma migrateReplica_idem (r : SchemaDB) :
    migrateReplica (migrateReplica r) = migrateReplica r := by
  unfold migrateReplica
  cases he : r.expenses with
  | none => simp [he]
  | some t =>
    simp [he, patchExpensesReplica_of_mem _ (patchExpensesReplica_mem t).1
      (patchExpensesReplica_mem t).2]

lemma migrateReplica_nodup (r : SchemaDB) (h : SchemaNodup r) :
    SchemaNodup (migrateReplica r) := by
  unfold migrateReplica
  cases he : r.expenses with
  | none => exact h
  | some t =>
    obtain ⟨hu, hc, hx, hic, ha, hi⟩ := h
    refine ⟨hu, hc, ?_, hic, ha, hi⟩
    have : t.Nodup := by
      simpa [optNodup, he] using hx
    exact patchExpensesReplica_nodup t this

lemma optNodup_getD (o : Option (List String)) (d : List String)
    (ho : optNodup o) (hd : d.Nodup) : optNodup (some (o.getD d)) := by
  cases o with
  | none => simpa [optNodup] using hd
  | some t => simpa [optNodup] using ho

/-- C7.  The schema migration is idempotent and additive: running the
schema-ensure portion of `initDB` twice equals running it once; it
introduces no duplicate column into any store (so the guarded
`ALTER TABLE ... ADD COLUMN` statements never error); and on a replica it
patches columns only when the `expenses` table already exists there — a
replica lacking the table is left entirely untouched. -/
theorem initDB_schema_idempotent_additive (s : MigState) (hnd : MigNodup s) :
    initDBSchema (initDBSchema s) = initDBSchema s ∧
    MigNodup (initDBSchema s) ∧
    (∀ r, s.backup1 = some r → r.expenses = none →
      (initDBSchema s).backup1 = some r) ∧
    (∀ r, s.backup2 = some r → r.expenses = none →
      (initDBSchema s).backup2 = some r) := by
  obtain ⟨⟨hu, hc, hx, hic, ha, hi⟩, hb1, hb2⟩ := hnd
  refine ⟨?_, ⟨⟨optNodup_getD _ _ hu (by decide), optNodup_getD _ _ hc (by decide),
    ?_, optNodup_getD _ _ hic (by decide), optNodup_getD _ _ ha (by decide), ?_⟩,
    ?_, ?_⟩, ?_, ?_⟩
  · unfold initDBSchema
    simp only [Option.getD_some, MigState.mk.injEq, SchemaDB.mk.injEq, Option.map_map]
    refine ⟨⟨trivial, trivial, ?_, trivial, trivial, ?_⟩, ?_, ?_⟩
    · rw [patchExpensesMain_idem]
    · rw [patchIncomes_idem]
    · cases s.backup1 with
      | none => rfl
      | some r => simp [migrateReplica_idem]
    · cases s.backup2 with
      | none => rfl
      | some r => simp [migrateReplica_idem]
  · show optNodup (some (patchExpensesMain (s.main.expenses.getD expensesCols)))
    refine patchExpensesMain_nodup _ ?_
    cases he : s.main.expenses with
    | none => simp [expensesCols]
    | some t =>
      simpa [optNodup, he] using hx
  · show optNodup (some (patchIncomes (s.main.incomes.getD incomesCols)))
    refine patchIncomes_nodup _ ?_
    cases he : s.main.incomes with
    | none => simp [incomesCols]
    | some t =>
      simpa [optNodup, he] using hi
  · show optSchemaNodup ((initDBSchema s).backup1)
    unfold initDBSchema
    cases he : s.backup1 with
    | none => trivial
    | some r =>
      have hr : SchemaNodup r := by
        simpa [optSchemaNodup, he] using hb1
      simpa [optSchemaNodup] using migrateReplica_nodup r hr
  · show optSchemaNodup ((initDBSchema s).backup2)
    unfold initDBSchema
    cases he : s.backup2 with
    | none => trivial
    | some r =>
      have hr : SchemaNodup r := by
        simpa [optSchemaNodup, he] using hb2
      simpa [optSchemaNodup] using migrateReplica_nodup r hr
  · intro r hr he
    unfold initDBSchema
    simp [hr, migrateReplica, he]
  · intro r hr he
    unfold initDBSchema
    simp [hr, migrateReplica, he]

/-- Witness for C7 at a fresh deployment: an empty primary schema, a
replica 1 lacking every table, and a null replica 2 handle. -/
theorem initDB_schema_idempotent_additive_witness :
    initDBSchema (initDBSchema ⟨⟨none, none, none, none, none, none⟩,
        some ⟨none, none, none, none, none, none⟩, none⟩) =
      initDBSchema ⟨⟨none, none, none, none, none, none⟩,
        some ⟨none, none, none, none, none, none⟩, none⟩ :=
  (initDB_schema_idempotent_additive ⟨⟨none, none, none, none, none, none⟩,
    some ⟨none, none, none, none, none, none⟩, none⟩ (by decide)).1

/-! ## Default-data seeding (`initDB`, src/models/database.js lines 276-358)

The seeding part of `initDB` runs three blocks, all against the module-level
primary handle `db` only: the default linked account for user `abhiknes`
(plus back-filling `accountId` on that user's existing expenses and
incomes), the default categories when the `categories` table is empty, and
the default income categories when the `income_categories` table is empty.
The replica handles are never referenced in these blocks. -/

/-- One category row as inserted by the seeding code (`name, icon,
hexColor`). -/
structure CatRow where
  name : String
  icon : String
  hexColor : String
deriving DecidableEq

/-- One account row (`id, name, type, userId, icon, hexColor, isDefault`). -/
structure AccountRow where
  id : Nat
  name : String
  type : String
  userId : Nat
  icon : String
  hexColor : String
  isDefault : Nat
deriving DecidableEq

/-- The `userId`/`accountId` projection of an expense or income row, the
columns touched by the default-account back-fill. -/
structure AccRef where
  userId : Nat
  accountId : Option Nat
deriving DecidableEq

/-- The eight default categories of database.js lines 314-323. -/
def defaultCategories : List CatRow :=
  [⟨"Food & Dining", "🍽️", "#FF6B6B"⟩,
   ⟨"Transportation", "🚗", "#4ECDC4"⟩,
   ⟨"Shopping", "🛍️", "#FFE66D"⟩,
   ⟨"Entertainment", "🎬", "#A8E6CF"⟩,
   ⟨"Bills & Utilities", "💡", "#C7CEEA"⟩,
   ⟨"Health", "⚕️", "#FF8B94"⟩,
   ⟨"Travel", "✈️", "#95E1D3"⟩,
   ⟨"Other", "📌", "#D4AF37"⟩]

/-- The six default income categories of database.js lines 342-349. -/
def defaultIncomeCategories : List CatRow :=
  [⟨"Salary", "💼", "#4CAF50"⟩,
   ⟨"Freelance", "💻", "#8BC34A"⟩,
   ⟨"Investment", "📈", "#00BCD4"⟩,
   ⟨"Gift", "🎁", "#E91E63"⟩,
   ⟨"Refund", "↩️", "#9C27B0"⟩,
   ⟨"Other Income", "💰", "#FF9800"⟩]

/-- Row-level state seen by the seeding code: the primary's tables, the id
of the `abhiknes` user when present, and the replica stores' category
tables (present when the replica file holds the table). -/
structure SeedState where
  abhiknesId : Option Nat
  accounts : List AccountRow
  expenses : List AccRef
  incomes : List AccRef
  categories : List CatRow
  incomeCategories : List CatRow
  b1Categories : Option (List CatRow)
  b2Categories : Option (List CatRow)
deriving DecidableEq

/-- Default-account block (database.js lines 276-304): when the `abhiknes`
user exists and owns no account, insert the `HDFC 1372` account on the
primary (its id is the store-local `lastInsertRowid`) and back-fill
`accountId` on that user's expenses and incomes whose `accountId` is NULL.
Only the primary handle is used. -/
def seedDefaultAccount (s : SeedState) : SeedState :=
  match s.abhiknesId with
  | none => s
  | some uid =>
    if (s.accounts.filter (fun a => a.userId == uid)).length == 0 then
      let newId := (s.accounts.map (fun a => a.id)).foldr max 0 + 1
      { s with
        accounts := s.accounts ++
          [⟨newId, "HDFC 1372", "Savings Account", uid, "🏦", "#004C8F", 1⟩]
        expenses := s.expenses.map (fun e =>
          if e.userId == uid && e.accountId.isNone then
            { e with accountId := some newId } else e)
        incomes := s.incomes.map (fun e =>
          if e.userId == uid && e.accountId.isNone then
            { e with accountId := some newId } else e) }
    else s

/-- Default-categories block (database.js lines 306-332): insert the eight
defaults, on the primary only, when the primary's `categories` table is
empty. -/
def seedCats (s : SeedState) : SeedState :=
  if s.categories.isEmpty then { s with categories := defaultCategories } else s

/-- Default-income-categories block (database.js lines 334-358). -/
def seedIncomeCats (s : SeedState) : SeedState :=
  if s.incomeCategories.isEmpty then
    { s with incomeCategories := defaultIncomeCategories } else s

/-- Seeding portion of `initDB()`, in source order. -/
def seedDefaults (s : SeedState) : SeedState :=
  seedIncomeCats (seedCats (seedDefaultAccount s))

lemma seedDefaultAccount_categories (s : SeedState) :
    (seedDefaultAccount s).categories = s.categories := by
  unfold seedDefaultAccount
  cases s.abhiknesId with
  | none => rfl
  | some uid =>
    dsimp only
    split_ifs <;> rfl

lemma seedDefaultAccount_incomeCategories (s : SeedState) :
    (seedDefaultAccount s).incomeCategories = s.incomeCategories := by
  unfold seedDefaultAccount
  cases s.abhiknesId with
  | none => rfl
  | some uid =>
    dsimp only
    split_ifs <;> rfl

lemma seedDefaultAccount_b1 (s : SeedState) :
    (seedDefaultAccount s).b1Categories = s.b1Categories := by
  unfold seedDefaultAccount
  cases s.abhiknesId with
  | none => rfl
  | some uid =>
    dsimp only
    split_ifs <;> rfl

lemma seedDefaultAccount_b2 (s : SeedState) :
    (seedDefaultAccount s).b2Categories = s.b2Categories := by
  unfold seedDefaultAccount
  cases s.abhiknesId with
  | none => rfl
  | some uid =>
    dsimp only
    split_ifs <;> rfl

lemma seedDefaultAccount_of_owned (s : SeedState) (uid : Nat)
    (h : s.abhiknesId = some uid)
    (hc : (s.accounts.filter (fun a => a.userId == uid)).length ≠ 0) :
    seedDefaultAccount s = s := by
  unfold seedDefaultAccount
  rw [h]
  dsimp only
  split_ifs with hg
  · exact absurd (by simpa using hg) hc
  · rfl

lemma seedCats_accounts (s : SeedState) : (seedCats s).accounts = s.accounts := by
  unfold seedCats
  split_ifs <;> rfl

lemma seedCats_incomeCategories (s : SeedState) :
    (seedCats s).incomeCategories = s.incomeCategories := by
  unfold seedCats
  split_ifs <;> rfl

lemma seedCats_b1 (s : SeedState) : (seedCats s).b1Categories = s.b1Categories := by
  unfold seedCats
  split_ifs <;> rfl

lemma seedCats_b2 (s : SeedState) : (seedCats s).b2Categories = s.b2Categories := by
  unfold seedCats
  split_ifs <;> rfl

lemma seedCats_of_empty (s : SeedState) (h : s.categories = []) :
    (seedCats s).categories = defaultCategories := by
  unfold seedCats
  rw [h]
  rfl

lemma seedCats_of_nonempty (s : SeedState) (h : s.categories ≠ []) :
    (seedCats s).categories = s.categories := by
  unfold seedCats
  split_ifs with hg
  · exact absurd (by simpa [List.isEmpty_iff] using hg) h
  · rfl

lemma seedIncomeCats_accounts (s : SeedState) :
    (seedIncomeCats s).accounts = s.accounts := by
  unfold seedIncomeCats
  split_ifs <;> rfl

lemma seedIncomeCats_categories (s : SeedState) :
    (seedIncomeCats s).categories = s.categories := by
  unfold seedIncomeCats
  split_ifs <;> rfl

lemma seedIncomeCats_b1 (s : SeedState) :
    (seedIncomeCats s).b1Categories = s.b1Categories := by
  unfold seedIncomeCats
  split_ifs <;> rfl

lemma seedIncomeCats_b2 (s : SeedState) :
    (seedIncomeCats s).b2Categories = s.b2Categories := by
  unfold seedIncomeCats
  split_ifs <;> rfl

lemma seedIncomeCats_of_empty (s : SeedState) (h : s.incomeCategories = []) :
    (seedIncomeCats s).incomeCategories = defaultIncomeCategories := by
  unfold seedIncomeCats
  rw [h]
  rfl

lemma seedIncomeCats_of_nonempty (s : SeedState) (h : s.incomeCategories ≠ []) :
    (seedIncomeCats s).incomeCategories = s.incomeCategories := by
  unfold seedIncomeCats
  split_ifs with hg
  · exact absurd (by simpa [List.isEmpty_iff] using hg) h
  · rfl

/-- Concrete seeding state: empty primary `categories`, both replica
`categories` tables present but empty. -/
def sSeed : SeedState := ⟨none, [], [], [], [], [], some [], some []⟩

/-- C8 counterexample.  Seeding a primary with an empty `categories` table
while both replicas hold (empty) `categories` tables fills the primary with
the eight default categories but writes nothing to either replica — the
seeded rows do not appear in the replicas, refuting that seeding is
performed as a replicated mutation. -/
theorem seeding_c8_counterexample :
    (seedDefaults sSeed).categories = defaultCategories ∧
    (seedDefaults sSeed).b1Categories = some [] ∧
    (seedDefaults sSeed).b2Categories = some [] ∧
    (seedDefaults sSeed).b1Categories ≠ some defaultCategories := by
  refine ⟨rfl, rfl, rfl, ?_⟩
  decide

/-- C8 (amended).  Default-data seeding runs only when the relevant table is
empty (for the default account: only when the `abhiknes` user exists and
owns no account) and is performed as plain statements against the primary
handle only: the replica stores are never written by seeding. -/
theorem seedDefaults_primary_only (s : SeedState) :
    (seedDefaults s).b1Categories = s.b1Categories ∧
    (seedDefaults s).b2Categories = s.b2Categories ∧
    (s.categories = [] → (seedDefaults s).categories = defaultCategories) ∧
    (s.categories ≠ [] → (seedDefaults s).categories = s.categories) ∧
    (s.incomeCategories = [] →
      (seedDefaults s).incomeCategories = defaultIncomeCategories) ∧
    (s.incomeCategories ≠ [] →
      (seedDefaults s).incomeCategories = s.incomeCategories) ∧
    (∀ uid, s.abhiknesId = some uid →
      (s.accounts.filter (fun a => a.userId == uid)).length ≠ 0 →
      (seedDefaults s).accounts = s.accounts) := by
  unfold seedDefaults
  refine ⟨?_, ?_, ?_, ?_, ?_, ?_, ?_⟩
  · rw [seedIncomeCats_b1, seedCats_b1, seedDefaultAccount_b1]
  · rw [seedIncomeCats_b2, seedCats_b2, seedDefaultAccount_b2]
  · intro h
    have h1 : (seedDefaultAccount s).categories = [] := by
      rw [seedDefaultAccount_categories, h]
    rw [seedIncomeCats_categories, seedCats_of_empty _ h1]
  · intro h
    have h1 : (seedDefaultAccount s).categories ≠ [] := by
      rw [seedDefaultAccount_categories]
      exact h
    rw [seedIncomeCats_categories, seedCats_of_nonempty _ h1,
      seedDefaultAccount_categories]
  · intro h
    have h1 : (seedCats (seedDefaultAccount s)).incomeCategories = [] := by
      rw [seedCats_incomeCategories, seedDefaultAccount_incomeCategories, h]
    rw [seedIncomeCats_of_empty _ h1]
  · intro h
    have h1 : (seedCats (seedDefaultAccount s)).incomeCategories ≠ [] := by
      rw [seedCats_incomeCategories, seedDefaultAccount_incomeCategories]
      exact h
    rw [seedIncomeCats_of_nonempty _ h1, seedCats_incomeCategories,
      seedDefaultAccount_incomeCategories]
  · intro uid h hc
    rw [seedIncomeCats_accounts, seedCats_accounts,
      seedDefaultAccount_of_owned s uid h hc]

/-- Witness for the amended C8 theorem: a primary whose `categories` table
already holds a row is left unchanged by seeding. -/
theorem seedDefaults_primary_only_witness :
    (seedDefaults ⟨none, [], [], [], [⟨"Food & Dining", "🍽️", "#FF6B6B"⟩],
        [], none, none⟩).categories = [⟨"Food & Dining", "🍽️", "#FF6B6B"⟩] :=
  (seedDefaults_primary_only ⟨none, [], [], [],
    [⟨"Food & Dining", "🍽️", "#FF6B6B"⟩], [], none, none⟩).2.2.2.1 (by decide)

/-! ## `Account.delete` (src/models/Account.js lines 146-166)

An account store is a handle (reachable or not) over the `accounts` rows.
`Account.delete(id, userId)` first counts the user's accounts on the
primary and throws `Cannot delete the last account` when the count is at
most one, before any write; otherwise it routes the `DELETE ... WHERE id = ?
AND userId = ?` statement through `tripleWrite` and returns whether the
primary deleted a row. -/

/-- One account store handle: reachability plus its rows. -/
structure AccStore where
  reachable : Bool
  rows : List AccountRow
deriving DecidableEq

/-- Effect of `DELETE FROM accounts WHERE id = ? AND userId = ?` on one
store. -/
def delAccStore (id uid : Nat) (st : AccStore) : AccStore :=
  ⟨st.reachable, st.rows.filter (fun a => !(a.id == id && a.userId == uid))⟩

/-- The engine's `result.changes` for that statement: the number of matching
rows. -/
def delAccChanges (id uid : Nat) (st : AccStore) : Nat :=
  (st.rows.filter (fun a => a.id == id && a.userId == uid)).length

/-- The delete closure passed to `tripleWrite` by `Account.delete`: runs the
statement on a reachable store, throws on an unreachable one. -/
def accountDeleteOp (id uid : Nat) : Bool → AccStore → OpResult String Nat AccStore :=
  fun _ st =>
    if st.reachable then .ok (delAccStore id uid st) (delAccChanges id uid st)
    else .err st "SQLITE_IOERR"

/-- Errors thrown by `Account.delete`: the explicit
`Cannot delete the last account` guard, or an error escaping
`tripleWrite`. -/
inductive AccountDeleteErr where
  | lastAccount
  | writeFailed (e : TWError String)
deriving DecidableEq

/-- The guard's `SELECT COUNT(*) FROM accounts WHERE userId = ?`. -/
def countAccounts (uid : Nat) (st : AccStore) : Nat :=
  (st.rows.filter (fun a => a.userId == uid)).length

/-- Shallow embedding of `Account.delete(id, userId)` (src/models/Account.js
lines 146-166): throw when the user owns at most one account, else run the
delete through `tripleWrite` and return whether the primary's statement
deleted a row (`result.changes > 0` captured from the `database === db`
invocation). -/
def accountDelete (id uid : Nat) (s : SysState AccStore) :
    SysState AccStore × Except AccountDeleteErr Bool :=
  if countAccounts uid s.main ≤ 1 then (s, .error .lastAccount)
  else
    let res := tripleWrite (accountDeleteOp id uid) s
    (res.1,
      match res.2 with
      | .ok changes => .ok (changes != 0)
      | .error e => .error (.writeFailed e))

/-- All configured handles are reachable: the primary, and each replica that
is present. -/
def allReachable (s : SysState AccStore) : Bool :=
  s.main.reachable &&
    (match s.backup1 with | some b => b.reachable | none => true) &&
    (match s.backup2 with | some b => b.reachable | none => true)

lemma tripleWrite_accountDeleteOp_allReachable (id uid : Nat)
    (s : SysState AccStore) (h : allReachable s = true) :
    tripleWrite (accountDeleteOp id uid) s =
      (⟨delAccStore id uid s.main, s.backup1.map (delAccStore id uid),
        s.backup2.map (delAccStore id uid)⟩, .ok (delAccChanges id uid s.main)) := by
  simp only [allReachable, Bool.and_eq_true] at h
  obtain ⟨⟨hm, h1⟩, h2⟩ := h
  cases hb1 : s.backup1 with
  | none =>
    cases hb2 : s.backup2 with
    | none => simp [tripleWrite, accountDeleteOp, hm, hb1, hb2]
    | some b2 =>
      rw [hb2] at h2
      have h2x : b2.reachable = true := by simpa using h2
      simp [tripleWrite, accountDeleteOp, hm, hb1, hb2, h2x]
  | some b1 =>
    rw [hb1] at h1
    have h1x : b1.reachable = true := by simpa using h1
    cases hb2 : s.backup2 with
    | none => simp [tripleWrite, accountDeleteOp, hm, hb1, hb2, h1x]
    | some b2 =>
      rw [hb2] at h2
      have h2x : b2.reachable = true := by simpa using h2
      simp [tripleWrite, accountDeleteOp, hm, hb1, hb2, h1x, h2x]

/-- C9.  `Account.delete(id, userId)` throws `Cannot delete the last
account` and leaves the primary and both replicas unchanged whenever the
user owns at most one account on the primary; with two or more accounts
(and reachable stores) the deletion proceeds: the call returns whether a
row matched on the primary, and afterwards no row `(id, userId)` remains in
the primary. -/
theorem account_delete_last_account_guard (id uid : Nat) (s : SysState AccStore) :
    (countAccounts uid s.main ≤ 1 →
      accountDelete id uid s = (s, .error .lastAccount)) ∧
    (2 ≤ countAccounts uid s.main → allReachable s = true →
      ((accountDelete id uid s).2 = .ok (delAccChanges id uid s.main != 0) ∧
        ∀ a ∈ (accountDelete id uid s).1.main.rows, ¬(a.id = id ∧ a.userId = uid))) := by
  constructor
  · intro h
    unfold accountDelete
    rw [if_pos h]
  · intro h hr
    have hn : ¬ countAccounts uid s.main ≤ 1 := by omega
    have htw := tripleWrite_accountDeleteOp_allReachable id uid s hr
    constructor
    · unfold accountDelete
      rw [if_neg hn]
      simp [htw]
    · intro a ha hcon
      obtain ⟨hid, huid⟩ := hcon
      unfold accountDelete at ha
      rw [if_neg hn] at ha
      simp [htw, delAccStore, List.mem_filter, hid, huid] at ha

/-- Witness for C9: deleting the only account of user 7 is rejected with the
state unchanged, and with two accounts the delete removes the matching
row. -/
theorem account_delete_last_account_guard_witness :
    accountDelete 1 7 ⟨⟨true, [⟨1, "Cash", "Cash", 7, "💵", "#4CAF50", 1⟩]⟩,
        none, none⟩ =
      (⟨⟨true, [⟨1, "Cash", "Cash", 7, "💵", "#4CAF50", 1⟩]⟩, none, none⟩,
        .error .lastAccount) :=
  (account_delete_last_account_guard 1 7
    ⟨⟨true, [⟨1, "Cash", "Cash", 7, "💵", "#4CAF50", 1⟩]⟩, none, none⟩).1
    (by decide)

/-! ## User scoping of `Expense` operations (src/models/Expense.js lines
179-294)

Every query and statement of the authoritative `Expense` class carries
`AND userId = ?` (or `e.userId = ?` in joins).  `getById` joins
`categories`, so a row is returned only when its category exists and both
its `id` and its `userId` match. -/

/-- One row of the `expenses` table. -/
structure ExpRow where
  id : Nat
  userId : Nat
  amount : Int
  date : String
  categoryId : Nat
  note : String
  whereSpent : String
  timestamp : Nat
deriving DecidableEq

/-- One row of the `categories` table. -/
structure CategoryRow where
  id : Nat
  name : String
  icon : String
  hexColor : String
deriving DecidableEq

/-- Read view of the primary for `Expense.getById`: the `expenses` table and
the `categories` table it joins. -/
structure PrimaryDB where
  expenses : List ExpRow
  categories : List CategoryRow
deriving DecidableEq

/-- Shallow embedding of `Expense.getById(id, userId)` (src/models/Expense.js
lines 210-218): the first expense row with the given `id` and `userId` whose
`categoryId` joins to an existing category. -/
def Expense.getById (id uid : Nat) (d : PrimaryDB) : Option ExpRow :=
  d.expenses.find? (fun e => e.id == id && e.userId == uid &&
    d.categories.any (fun c => c.id == e.categoryId))

/-- The sanitized update set of `Expense.update`: only the allowed fields
(`amount`, `date`, `categoryId`, `note`, `whereSpent`) can be present —
`userId` is not updatable. -/
structure ExpUpdates where
  amount : Option Int
  date : Option String
  categoryId : Option Nat
  note : Option String
  whereSpent : Option String
deriving DecidableEq

/-- Application of the update set to one row. -/
def applyExpUpdates (u : ExpUpdates) (e : ExpRow) : ExpRow :=
  { e with
    amount := u.amount.getD e.amount
    date := u.date.getD e.date
    categoryId := u.categoryId.getD e.categoryId
    note := u.note.getD e.note
    whereSpent := u.whereSpent.getD e.whereSpent }

/-- Effect on one store's rows of `UPDATE expenses SET ... WHERE id = ? AND
userId = ?` (src/models/Expense.js lines 262-264). -/
def expenseUpdateRows (id uid : Nat) (u : ExpUpdates) (rows : List ExpRow) :
    List ExpRow :=
  rows.map (fun e =>
    if e.id == id && e.userId == uid then applyExpUpdates u e else e)

/-- Effect on one store's rows of `DELETE FROM expenses WHERE id = ? AND
userId = ?` (src/models/Expense.js lines 283-285). -/
def expenseDeleteRows (id uid : Nat) (rows : List ExpRow) : List ExpRow :=
  rows.filter (fun e => !(e.id == id && e.userId == uid))

/-- Column values supplied to `Expense.create`. -/
structure ExpCreateData where
  amount : Int
  date : String
  categoryId : Nat
  note : String
  whereSpent : String
  timestamp : Nat
deriving DecidableEq

/-- Effect on one store's rows of the `INSERT INTO expenses (...) VALUES
(...)` of `Expense.create` (src/models/Expense.js lines 229-235); the new
row's id is the store-local `lastInsertRowid`. -/
def expenseCreateRows (uid : Nat) (c : ExpCreateData) (rows : List ExpRow) :
    List ExpRow :=
  rows ++ [⟨(rows.map (fun e => e.id)).foldr max 0 + 1, uid, c.amount, c.date,
    c.categoryId, c.note, c.whereSpent, c.timestamp⟩]

/-- One expense store handle. -/
structure ExpStore where
  reachable : Bool
  rows : List ExpRow
deriving DecidableEq

/-- The delete closure of `Expense.delete` as passed to `tripleWrite`. -/
def expenseDeleteOp (id uid : Nat) : Bool → ExpStore → OpResult String Nat ExpStore :=
  fun _ st =>
    if st.reachable then
      .ok ⟨st.reachable, expenseDeleteRows id uid st.rows⟩
        (st.rows.filter (fun e => e.id == id && e.userId == uid)).length
    else .err st "SQLITE_IOERR"

/-- Shallow embedding of `Expense.delete(id, userId)` (src/models/Expense.js
lines 280-294): run the user-scoped delete through `tripleWrite`, returning
whether the primary's statement deleted a row. -/
def expenseDelete (id uid : Nat) (s : SysState ExpStore) :
    SysState ExpStore × Except (TWError String) Bool :=
  let res := tripleWrite (expenseDeleteOp id uid) s
  (res.1,
    match res.2 with
    | .ok changes => .ok (changes != 0)
    | .error e => .error e)

lemma tripleWrite_main_cases {σ E α : Type} (op : Bool → σ → OpResult E α σ)
    (s : SysState σ) :
    (tripleWrite op s).1.main = s.main ∨
      ∃ m a, op true s.main = .ok m a ∧ (tripleWrite op s).1.main = m := by
  cases h : op true s.main with
  | err m e =>
    left
    simp [tripleWrite, h]
  | ok m a =>
    cases hb1 : s.backup1 with
    | none =>
      cases hb2 : s.backup2 with
      | none => exact Or.inr ⟨m, a, rfl, by simp [tripleWrite, h, hb1, hb2]⟩
      | some b2 =>
        cases hop2 : op false b2 with
        | err b2x e2 =>
          left
          simp [tripleWrite, h, hb1, hb2, hop2]
        | ok b2x a2 => exact Or.inr ⟨m, a, rfl, by simp [tripleWrite, h, hb1, hb2, hop2]⟩
    | some b1 =>
      cases hop1 : op false b1 with
      | err b1x e1 =>
        left
        simp [tripleWrite, h, hb1, hop1]
      | ok b1x a1 =>
        cases hb2 : s.backup2 with
        | none => exact Or.inr ⟨m, a, rfl, by simp [tripleWrite, h, hb1, hop1, hb2]⟩
        | some b2 =>
          cases hop2 : op false b2 with
          | err b2x e2 =>
            left
            simp [tripleWrite, h, hb1, hop1, hb2, hop2]
          | ok b2x a2 =>
            exact Or.inr ⟨m, a, rfl, by simp [tripleWrite, h, hb1, hop1, hb2, hop2]⟩

lemma expenseDeleteRows_other_users (id uid : Nat) (rows : List ExpRow) :
    (expenseDeleteRows id uid rows).filter (fun e => !(e.userId == uid)) =
      rows.filter (fun e => !(e.userId == uid)) := by
  induction rows with
  | nil => rfl
  | cons e t ih =>
    unfold expenseDeleteRows at *
    cases hu : e.userId == uid <;> cases hi : e.id == id <;>
      simp_all [List.filter_cons]

lemma applyExpUpdates_userId (u : ExpUpdates) (e : ExpRow) :
    (applyExpUpdates u e).userId = e.userId := rfl

lemma expenseUpdateRows_other_users (id uid : Nat) (u : ExpUpdates)
    (rows : List ExpRow) :
    (expenseUpdateRows id uid u rows).filter (fun e => !(e.userId == uid)) =
      rows.filter (fun e => !(e.userId == uid)) := by
  induction rows with
  | nil => rfl
  | cons e t ih =>
    unfold expenseUpdateRows at *
    cases hu : e.userId == uid <;> cases hi : e.id == id <;>
      simp_all [List.filter_cons, applyExpUpdates_userId]

/-- C10.  Every `Expense` operation is user-scoped: `getById(id, userId)`
returns a row only if that row's `userId` is the given one; and on every
store the delete, update and create statements leave the rows of every
other user exactly unchanged — in particular the primary's other-user rows
are unchanged by `Expense.delete` under every outcome of the coordinator
(commit, primary failure, or replica-failure rollback). -/
theorem expense_user_scoping (id uid : Nat) (d : PrimaryDB) (u : ExpUpdates)
    (c : ExpCreateData) (rows : List ExpRow) (s : SysState ExpStore) :
    (∀ r, Expense.getById id uid d = some r → r.userId = uid) ∧
    (expenseDeleteRows id uid rows).filter (fun e => !(e.userId == uid)) =
      rows.filter (fun e => !(e.userId == uid)) ∧
    (expenseUpdateRows id uid u rows).filter (fun e => !(e.userId == uid)) =
      rows.filter (fun e => !(e.userId == uid)) ∧
    (expenseCreateRows uid c rows).filter (fun e => !(e.userId == uid)) =
      rows.filter (fun e => !(e.userId == uid)) ∧
    (expenseDelete id uid s).1.main.rows.filter (fun e => !(e.userId == uid)) =
      s.main.rows.filter (fun e => !(e.userId == uid)) := by
  refine ⟨?_, expenseDeleteRows_other_users id uid rows,
    expenseUpdateRows_other_users id uid u rows, ?_, ?_⟩
  · intro r hr
    have hp := List.find?_some hr
    simp only [Bool.and_eq_true, beq_iff_eq] at hp
    exact hp.1.2
  · unfold expenseCreateRows
    simp [List.filter_append]
  · have hfst : (expenseDelete id uid s).1 = (tripleWrite (expenseDeleteOp id uid) s).1 := rfl
    rw [hfst]
    rcases tripleWrite_main_cases (expenseDeleteOp id uid) s with h | ⟨m, a, hop, h⟩
    · rw [h]
    · by_cases hr : s.main.reachable = true
      · have hm : m = ⟨true, expenseDeleteRows id uid s.main.rows⟩ := by
          simp only [expenseDeleteOp, hr, if_true] at hop
          injection hop with h1 h2
          exact h1.symm
        rw [h, hm]
        exact expenseDeleteRows_other_users id uid s.main.rows
      · have hf : s.main.reachable = false := by simpa using hr
        simp [expenseDeleteOp, hf] at hop

/-- Witness for C10: `getById` at a concrete store returns the stored row of
user 7, whose `userId` is 7. -/
theorem expense_user_scoping_witness :
    (⟨1, 7, 42, "2024-01-15", 1, "Cafe", "Cafe", 0⟩ : ExpRow).userId = 7 :=
  (expense_user_scoping 1 7
    ⟨[⟨1, 7, 42, "2024-01-15", 1, "Cafe", "Cafe", 0⟩],
      [⟨1, "Food & Dining", "🍽️", "#FF6B6B"⟩]⟩
    ⟨none, none, none, none, none⟩ ⟨0, "", 0, "", "", 0⟩ [] ⟨⟨true, []⟩, none, none⟩).1
    ⟨1, 7, 42, "2024-01-15", 1, "Cafe", "Cafe", 0⟩ rfl

end ExpTracker
